import Mathlib

/-!
Shallow embedding of the LiveConnect-Studio backend
(Backend/app/controller/processor/services.py and routes.py).

Conventions of the embedding:
* Python dict-backed JSON objects become Lean structures; a key that the
  code distinguishes between "present" and "absent" is an `Option` field;
  string values that the code only ever tests for truthiness are plain
  `String`s with the empty string standing for absent-or-empty.
* The two module-level registries `user_configs` and `user_agents` become
  the fields of `SysState`, passed and returned explicitly.
* A worker thread becomes an `AgentThread` record; a `UserAgentManager`
  keeps, as ghost history, every thread it ever spawned (newest first) so
  that at-most-one-alive is statable; `threads.head?` is `agent_thread`.
* Real time appears only where the code observes it: `stop_agent` takes
  the instant (after the cancellation signal) at which the running unit
  would exit on its own (`none` = stuck) and returns the time spent
  blocked in `join(timeout=5)`; the config-await loop takes its fuel and
  per-iteration observations of the shutdown event and the config.
-/

namespace LiveConnect

/-- The nested `liveKit` credential object `{apiKey, secret, serverUrl}`.
The code only ever reads these via `dict.get` + truthiness, so the empty
string models both a missing key and an empty value. -/
structure LiveKitConfig where
  apiKey : String
  secret : String
  serverUrl : String
deriving Repr, DecidableEq

/-- One of the `stt` / `llm` / `tts` provider objects. `provider` is an
`Option` because `dict.get("provider", "groq")` distinguishes a missing
key (defaults to groq) from a present value. -/
structure ProviderConfig where
  provider : Option String
  apiKey : String
deriving Repr, DecidableEq

/-- A request body / stored per-node configuration. The four section
fields are `Option` because `set_config` tests top-level key presence
(`key in data`). `nodeId` is read with truthiness (`data.get('nodeId') or
header`), so the empty string models a missing `nodeId` key. -/
structure ConfigData where
  nodeId : String
  liveKit : Option LiveKitConfig
  stt : Option ProviderConfig
  llm : Option ProviderConfig
  tts : Option ProviderConfig
deriving Repr, DecidableEq

/-- Python `a or b` on strings: the empty string is falsy. -/
def pyOr (a b : String) : String := if a = "" then b else a

/-- A spawned worker thread: its identity, its `name=f"Agent-{node_id}"`
label, and whether it is currently alive. -/
structure AgentThread where
  id : Nat
  name : String
  alive : Bool
deriving Repr, DecidableEq

/-- `UserAgentManager`: per-node handle. `threads` records every thread
this manager ever spawned, newest first; `threads.head?` plays the role
of the mutable `agent_thread` field (it is never reset to `None` by the
code, only replaced). `shutdown_event` is the `threading.Event`. -/
structure AgentManager where
  node_id : String
  config : ConfigData
  threads : List AgentThread
  spawnCount : Nat
  shutdown_event : Bool
deriving Repr, DecidableEq

/-- `UserAgentManager.__init__(node_id, config)`. -/
def AgentManager.init (node : String) (cfg : ConfigData) : AgentManager :=
  { node_id := node, config := cfg, threads := [], spawnCount := 0, shutdown_event := false }

/-- `agent_thread is not None and agent_thread.is_alive()` — the liveness
probe used by `start_agent`, `stop_agent` and the health check. -/
def AgentManager.isAlive (m : AgentManager) : Bool :=
  match m.threads.head? with
  | some t => t.alive
  | none => false

/-- `UserAgentManager.start_agent`: spawn a fresh thread unless the
current one is alive (`if self.agent_thread is None or not
self.agent_thread.is_alive()`). -/
def start_agent (m : AgentManager) : AgentManager :=
  if m.isAlive then m
  else
    { m with
      threads := { id := m.spawnCount, name := "Agent-" ++ m.node_id, alive := true } :: m.threads,
      spawnCount := m.spawnCount + 1 }

/-- `UserAgentManager.stop_agent`: if a thread exists and is alive, set
the shutdown event and `join(timeout=5)`. `exitTime` is the number of
time-units after the signal at which the unit would exit on its own
(`none` = stuck). Returns the updated manager, the time spent blocked in
the join, and whether the stop was graceful (no warning logged). The
thread is never force-killed: a unit alive at the deadline stays alive. -/
def stop_agent (m : AgentManager) (exitTime : Option Nat) : AgentManager × Nat × Bool :=
  match m.threads with
  | [] => (m, 0, true)
  | t :: rest =>
    if t.alive then
      let m1 := { m with shutdown_event := true }
      match exitTime with
      | some e =>
        if e ≤ 5 then
          ({ m1 with threads := { t with alive := false } :: rest }, e, true)
        else (m1, 5, false)
      | none => (m1, 5, false)
    else (m, 0, true)

/-- A worker unit terminating on its own (its `_run_livekit_agent`
returning): the thread with the given id, if any, becomes dead. -/
def mark_dead (m : AgentManager) (tid : Nat) : AgentManager :=
  { m with
    threads := m.threads.map fun t => if t.id = tid then { t with alive := false } else t }

/-- Ghost invariant: every thread other than the current one is dead. -/
def tail_dead (m : AgentManager) : Bool :=
  (m.threads.drop 1).all fun t => !t.alive

/-- Number of this manager's threads that are alive right now. -/
def alive_count (m : AgentManager) : Nat :=
  (m.threads.filter fun t => t.alive).length

/-- `UserAgentManager._validate_config` (and identically
`VoiceAssistant._validate_config`): all three liveKit credentials must be
truthy. -/
def validate_config (c : ConfigData) : Bool :=
  let lk := c.liveKit.getD { apiKey := "", secret := "", serverUrl := "" }
  !(lk.apiKey == "") && !(lk.secret == "") && !(lk.serverUrl == "")

/-- The `WorkerOptions(...)` record built by `_create_worker_options`. -/
structure WorkerOptions where
  api_key : String
  api_secret : String
  ws_url : String
deriving Repr, DecidableEq

/-- Construction of `WorkerOptions` from a validated config
(`livekit_config = config.get("liveKit", {})` then direct indexing,
which the preceding validation guarantees to succeed). -/
def mk_worker_options (c : ConfigData) : WorkerOptions :=
  let lk := c.liveKit.getD { apiKey := "", secret := "", serverUrl := "" }
  { api_key := lk.apiKey, api_secret := lk.secret, ws_url := lk.serverUrl }

/-- `UserAgentManager._create_worker_options`: loop — while the shutdown
event is unset, return options as soon as the config validates, else
sleep 5 and re-check; return `none` (no options) once the event is
observed. `shutdown i` / `cfg i` are the values observed at the i-th
check; `fuel` bounds the number of iterations modelled (`none` result =
the loop was still running after `fuel` checks). The second component of
a returned pair is the total time slept in the 5-unit backoffs. -/
def create_worker_options (shutdown : Nat → Bool) (cfg : Nat → ConfigData) :
    Nat → Nat → Option (Option WorkerOptions × Nat)
  | 0, _ => none
  | fuel + 1, i =>
    if shutdown i then some (none, 0)
    else if validate_config (cfg i) then some (some (mk_worker_options (cfg i)), 0)
    else
      match create_worker_options shutdown cfg fuel (i + 1) with
      | none => none
      | some (r, t) => some (r, t + 5)

/-! ### The module-level registries and the `Service` operations -/

/-- `dict.get(k)` on a string-keyed dict modelled as an association list. -/
def alookup {α : Type} (m : List (String × α)) (k : String) : Option α :=
  match m with
  | [] => none
  | (k', v) :: rest => if k' = k then some v else alookup rest k

/-- `if k in dict: del dict[k]`. -/
def aerase {α : Type} (m : List (String × α)) (k : String) : List (String × α) :=
  m.filter fun p => p.1 ≠ k

/-- `dict[k] = v` (replaces any previous binding). -/
def aset {α : Type} (m : List (String × α)) (k : String) (v : α) : List (String × α) :=
  (k, v) :: aerase m k

/-- The two module-level registries `user_configs` and `user_agents`. -/
structure SysState where
  user_configs : List (String × ConfigData)
  user_agents : List (String × AgentManager)
deriving Repr, DecidableEq

/-- The registries at process start (before any env auto-load). -/
def emptyState : SysState := { user_configs := [], user_agents := [] }

/-- The `resp_success` / `resp_failure` envelope, specialised to the data
payload a given endpoint returns. `failure` carries (message, error). -/
inductive ApiResult (α : Type) where
  | success (data : α)
  | failure (message : String) (error : String)
deriving Repr, DecidableEq

/-- `Service.set_config`: resolve nodeId (body key, else `X-Node-ID`
header), check the four required top-level keys, store the body as the
node's config, stop any existing agent manager (the stopped object is
immediately replaced, so only the new manager is observable), create and
start a fresh manager. `exitT` is the stop's exit-time observation for
the old agent's join. -/
def set_config (st : SysState) (body : ConfigData) (headerNode : String)
    (exitT : Option Nat) : ApiResult String × SysState :=
  let node := pyOr body.nodeId headerNode
  if node = "" then
    (ApiResult.failure "nodeId is required"
      "Please provide nodeId in request body or X-Node-ID header", st)
  else if body.liveKit.isSome ∧ body.stt.isSome ∧ body.llm.isSome ∧ body.tts.isSome then
    let _old := (alookup st.user_agents node).map fun m => (stop_agent m exitT).1
    let mgr := start_agent (AgentManager.init node body)
    (ApiResult.success node,
      { user_configs := aset st.user_configs node body,
        user_agents := aset st.user_agents node mgr })
  else
    (ApiResult.failure "Invalid configuration" "Missing required top-level keys", st)

/-- `Service.get_config`: resolve nodeId (query param, else header), then
`user_configs.get(node_id, {})`. The success payload is the stored
config, with `none` standing for the empty object `{}`. -/
def get_config (st : SysState) (qNode hNode : String) : ApiResult (Option ConfigData × String) :=
  let node := pyOr qNode hNode
  if node = "" then
    ApiResult.failure "nodeId is required"
      "Please provide nodeId parameter or X-Node-ID header"
  else ApiResult.success (alookup st.user_configs node, node)

/-- Per-node slice of `Service.health_check`:
`config_available = node_id in user_configs` and
`agent_running = manager and manager.agent_thread and
manager.agent_thread.is_alive()`. -/
structure NodeHealth where
  config_available : Bool
  agent_running : Bool
deriving Repr, DecidableEq

/-- `Service.health_check` with a nodeId supplied. -/
def health_check_node (st : SysState) (node : String) : NodeHealth :=
  { config_available := (alookup st.user_configs node).isSome,
    agent_running :=
      match alookup st.user_agents node with
      | some m => m.isAlive
      | none => false }

/-- `Service.cleanup_node`: stop and delete the agent manager if present,
delete the config if present, return `True`. (The `except` fallback that
returns `False` is unreachable absent a runtime fault: every operation in
the body is total.) `exitT` is the stop's exit-time observation. -/
def cleanup_node (st : SysState) (node : String) (exitT : Option Nat) : Bool × SysState :=
  let _stopped := (alookup st.user_agents node).map fun m => (stop_agent m exitT).1
  (true,
    { user_configs := aerase st.user_configs node,
      user_agents := aerase st.user_agents node })

/-- Route `DELETE /processor/cleanup-user`: require a nodeId, call
`cleanup_node`, report success iff it returned `True`. -/
def cleanup_user (st : SysState) (qNode hNode : String) (exitT : Option Nat) :
    ApiResult String × SysState :=
  let node := pyOr qNode hNode
  if node = "" then
    (ApiResult.failure "nodeId required"
      "Please provide nodeId parameter or X-Node-ID header", st)
  else
    let r := cleanup_node st node exitT
    if r.1 then (ApiResult.success node, r.2)
    else
      (ApiResult.failure "Failed to cleanup user resources"
        ("Could not cleanup resources for nodeId: " ++ node), r.2)

/-- `Service._get_livekit_config_for_node`: read the node's liveKit
section; `(None, None, None)` — here `none` — unless both apiKey and
secret are truthy. The serverUrl is passed through unchecked. -/
def get_livekit_config_for_node (st : SysState) (node : String) :
    Option (String × String × String) :=
  let c := (alookup st.user_configs node).getD
    { nodeId := "", liveKit := none, stt := none, llm := none, tts := none }
  let lk := c.liveKit.getD { apiKey := "", secret := "", serverUrl := "" }
  if lk.apiKey = "" ∨ lk.secret = "" then none
  else some (lk.apiKey, lk.secret, lk.serverUrl)

/-- Opaque model of `api.AccessToken(...).to_jwt()`: the JWT is a pure
function of the key, secret, identity and room grant. -/
def mk_jwt (apiKey secret identity room : String) : String :=
  "jwt(" ++ apiKey ++ "," ++ secret ++ "," ++ identity ++ "," ++ room ++ ")"

/-- The `token_data` payload returned by `Service.get_token`. -/
structure TokenData where
  token : String
  room : String
  serverUrl : String
  nodeId : String
deriving Repr, DecidableEq

/-- `Service.get_token`: require a nodeId; fail if no config is stored
for it (stored configs are never the empty dict, so `if not node_config`
is absence); fail if apiKey or secret is missing; otherwise issue the
token. `nameArg`/`roomArg` are the query params with `""` for absent;
`genRoom` is the uuid fragment used when no room was supplied. -/
def get_token (st : SysState) (qNode hNode nameArg roomArg genRoom : String) :
    ApiResult TokenData :=
  let node := pyOr qNode hNode
  if node = "" then
    ApiResult.failure "nodeId is required"
      "Please provide nodeId parameter or X-Node-ID header"
  else
    match alookup st.user_configs node with
    | none =>
      ApiResult.failure "Configuration not found"
        ("No configuration found for nodeId: " ++ node)
    | some _ =>
      match get_livekit_config_for_node st node with
      | none =>
        ApiResult.failure "LiveKit configuration not available"
          ("Please configure LiveKit credentials for nodeId: " ++ node)
      | some (apiKey, secret, serverUrl) =>
        let name := if nameArg = "" then "user-" ++ node else nameArg
        let room := if roomArg = "" then "room-" ++ node ++ "-" ++ genRoom else roomArg
        ApiResult.success
          { token := mk_jwt apiKey secret name room,
            room := room, serverUrl := serverUrl, nodeId := node }

/-! ### Provider initialization (`VoiceAssistant`) -/

/-- A resolved provider adapter. `groq*` is the baseline plugin imported
unconditionally; `plugin*` is an optional plugin's adapter. -/
inductive Adapter where
  | groqSTT (apiKey : String)
  | pluginSTT (name apiKey : String)
  | groqLLM (apiKey : String)
  | pluginLLM (name apiKey : String)
  | groqTTS (apiKey : String)
  | pluginTTS (name apiKey : String)
deriving Repr, DecidableEq

/-- Python `str.lower()` (ASCII case mapping on each character, which is
all the provider keys use). -/
def py_lower (s : String) : String := ⟨s.data.map Char.toLower⟩

/-- The keys of the module-level `OPTIONAL_PLUGINS` dict. -/
def optional_plugin_names : List String :=
  ["deepgram", "azure", "openai", "anthropic", "elevenlabs", "google"]

/-- `VoiceAssistant._get_plugin`: `OPTIONAL_PLUGINS.get(name.lower())` —
`some` iff the name is one of the optional plugins and its import at
process start succeeded (`avail`). Logs a warning when unavailable. -/
def get_plugin (avail : String → Bool) (name : String) : Option String :=
  if optional_plugin_names.contains (py_lower name) ∧ avail (py_lower name) then
    some (py_lower name)
  else none

/-- Default for `config.get("stt", {})` and friends. -/
def emptyProviderConfig : ProviderConfig := { provider := none, apiKey := "" }

/-- The provider key a section resolves to:
`section.get("provider", "groq").lower()`. -/
def provider_key (sec : Option ProviderConfig) : String :=
  py_lower ((sec.getD emptyProviderConfig).provider.getD "groq")

/-- The api key a section resolves to: `section.get("apiKey", "")`. -/
def provider_api_key (sec : Option ProviderConfig) : String :=
  (sec.getD emptyProviderConfig).apiKey

/-- `VoiceAssistant._initialize_stt`. `none` = `self.stt` left unset. -/
def init_stt (avail : String → Bool) (c : ConfigData) : Option Adapter :=
  let p := provider_key c.stt
  let key := provider_api_key c.stt
  if p = "groq" then some (Adapter.groqSTT key)
  else if p = "deepgram" then (get_plugin avail "deepgram").map fun pl => Adapter.pluginSTT pl key
  else if p = "azure" then (get_plugin avail "azure").map fun pl => Adapter.pluginSTT pl key
  else some (Adapter.groqSTT key)

/-- `VoiceAssistant._initialize_llm`. `none` = `self.llm` left unset. -/
def init_llm (avail : String → Bool) (c : ConfigData) : Option Adapter :=
  let p := provider_key c.llm
  let key := provider_api_key c.llm
  if p = "groq" then some (Adapter.groqLLM key)
  else if p = "openai" then (get_plugin avail "openai").map fun pl => Adapter.pluginLLM pl key
  else if p = "anthropic" then (get_plugin avail "anthropic").map fun pl => Adapter.pluginLLM pl key
  else if p = "azure" then (get_plugin avail "azure").map fun pl => Adapter.pluginLLM pl key
  else if p = "gemini" then (get_plugin avail "google").map fun pl => Adapter.pluginLLM pl key
  else some (Adapter.groqLLM key)

/-- `VoiceAssistant._initialize_tts`. `none` = `self.tts` left unset. -/
def init_tts (avail : String → Bool) (c : ConfigData) : Option Adapter :=
  let p := provider_key c.tts
  let key := provider_api_key c.tts
  if p = "groq" then some (Adapter.groqTTS key)
  else if p = "elevenlabs" then (get_plugin avail "elevenlabs").map fun pl => Adapter.pluginTTS pl key
  else if p = "openai" then (get_plugin avail "openai").map fun pl => Adapter.pluginTTS pl key
  else if p = "azure" then (get_plugin avail "azure").map fun pl => Adapter.pluginTTS pl key
  else if p = "google" then (get_plugin avail "google").map fun pl => Adapter.pluginTTS pl key
  else if p = "deepgram" then (get_plugin avail "deepgram").map fun pl => Adapter.pluginTTS pl key
  else some (Adapter.groqTTS key)

/-- The three `_initialize_*` calls made in sequence by
`VoiceAssistant.initialize`: each is computed independently; a skipped
provider leaves its own slot unset and the others untouched. -/
def init_providers (avail : String → Bool) (c : ConfigData) :
    Option Adapter × Option Adapter × Option Adapter :=
  (init_stt avail c, init_llm avail c, init_tts avail c)

/-! ### Concrete request bodies used to exercise the model -/

/-- A structurally complete body whose liveKit section is missing its
`secret` (so it violates the media-credential invariant). -/
def invalidMediaBody : ConfigData :=
  { nodeId := "n1",
    liveKit := some { apiKey := "k", secret := "", serverUrl := "wss://x" },
    stt := some { provider := some "groq", apiKey := "a" },
    llm := some { provider := some "groq", apiKey := "b" },
    tts := some { provider := some "groq", apiKey := "c" } }

/-- A fully valid body for node `n1`. -/
def validBody : ConfigData :=
  { nodeId := "n1",
    liveKit := some { apiKey := "k", secret := "s", serverUrl := "wss://x" },
    stt := some { provider := some "groq", apiKey := "a" },
    llm := some { provider := some "groq", apiKey := "b" },
    tts := some { provider := some "groq", apiKey := "c" } }

/-- A second valid body, distinct from `validBody`. -/
def validBody2 : ConfigData :=
  { validBody with liveKit := some { apiKey := "k2", secret := "s2", serverUrl := "wss://y" } }

/-- A body exercising the provider fallback and plugin-skip paths. -/
def pluginBody : ConfigData :=
  { validBody with
    stt := some { provider := some "whisperx", apiKey := "a" },
    llm := some { provider := some "anthropic", apiKey := "b" },
    tts := some { provider := some "elevenlabs", apiKey := "c" } }

/-- A body whose liveKit section has credentials but no serverUrl. -/
def tokenBody : ConfigData :=
  { validBody with liveKit := some { apiKey := "k", secret := "s", serverUrl := "" } }

/-- A body missing the top-level `llm` key. -/
def missingKeyBody : ConfigData :=
  { invalidMediaBody with llm := none }

/-! ### Helper lemmas -/

theorem pyOr_empty_right (a : String) : pyOr a "" = a := by
  unfold pyOr
  split <;> simp_all

theorem alookup_aerase_self {α : Type} (m : List (String × α)) (k : String) :
    alookup (aerase m k) k = none := by
  induction m with
  | nil => rfl
  | cons p rest ih =>
    by_cases h : p.1 = k
    · simpa [aerase, h] using ih
    · simpa [aerase, alookup, h] using ih

theorem alookup_aset_self {α : Type} (m : List (String × α)) (k : String) (v : α) :
    alookup (aset m k v) k = some v := by
  simp [aset, alookup]

/-- What `set_config` does on a structurally valid request: reports
success, stores exactly the body, installs a freshly started manager. -/
theorem set_config_ok (st : SysState) (body : ConfigData) (hNode : String)
    (e : Option Nat) (hnode : pyOr body.nodeId hNode ≠ "")
    (hkeys : body.liveKit.isSome ∧ body.stt.isSome ∧ body.llm.isSome ∧ body.tts.isSome) :
    (set_config st body hNode e).1 = ApiResult.success (pyOr body.nodeId hNode)
    ∧ alookup (set_config st body hNode e).2.user_configs (pyOr body.nodeId hNode) = some body
    ∧ alookup (set_config st body hNode e).2.user_agents (pyOr body.nodeId hNode)
        = some (start_agent (AgentManager.init (pyOr body.nodeId hNode) body)) := by
  unfold set_config
  rw [if_neg hnode, if_pos hkeys]
  exact ⟨rfl, alookup_aset_self .., alookup_aset_self ..⟩

/-! ### C1 -/

/-- C1, counterexample: `invalidMediaBody` violates the media-credential
invariant, yet `set_config` reports success and `get-config` afterwards
returns the stored body, not the empty structure. -/
theorem c1_counterexample :
    validate_config invalidMediaBody = false
    ∧ (set_config emptyState invalidMediaBody "" none).1 = ApiResult.success "n1"
    ∧ get_config (set_config emptyState invalidMediaBody "" none).2 "n1" ""
        = ApiResult.success (some invalidMediaBody, "n1") := by
  refine ⟨by decide, by decide, by decide⟩

/-- C1 (amended): an activation request that has a nodeId and all four
top-level keys is accepted and stored even when its config violates the
media-credential invariant; `queryConfig` then returns that config. The
invariant is enforced later, by the worker's config-await loop. -/
theorem c1_set_config_accepts_invalid_media (st : SysState) (body : ConfigData)
    (hNode : String) (e : Option Nat)
    (hnode : pyOr body.nodeId hNode ≠ "")
    (hkeys : body.liveKit.isSome ∧ body.stt.isSome ∧ body.llm.isSome ∧ body.tts.isSome)
    (_hinv : validate_config body = false) :
    (set_config st body hNode e).1 = ApiResult.success (pyOr body.nodeId hNode)
    ∧ get_config (set_config st body hNode e).2 (pyOr body.nodeId hNode) ""
        = ApiResult.success (some body, pyOr body.nodeId hNode) := by
  have h := set_config_ok st body hNode e hnode hkeys
  refine ⟨h.1, ?_⟩
  unfold get_config
  rw [pyOr_empty_right, if_neg hnode, h.2.1]

/-- C1 witness. -/
theorem c1_witness :
    (set_config emptyState invalidMediaBody "" none).1 = ApiResult.success "n1"
    ∧ get_config (set_config emptyState invalidMediaBody "" none).2 "n1" ""
        = ApiResult.success (some invalidMediaBody, "n1") :=
  c1_set_config_accepts_invalid_media emptyState invalidMediaBody "" none
    (by decide) (by decide) (by decide)

/-! ### C2 -/

/-- C2, counterexample: nothing exists for node `nope`, yet
`cleanup_node` returns `true` and the `cleanup-user` route reports
success to the HTTP caller. -/
theorem c2_counterexample :
    alookup emptyState.user_configs "nope" = none
    ∧ alookup emptyState.user_agents "nope" = none
    ∧ (cleanup_node emptyState "nope" none).1 = true
    ∧ (cleanup_user emptyState "nope" "" none).1 = ApiResult.success "nope" := by
  refine ⟨rfl, rfl, rfl, rfl⟩

/-- C2 (amended): `cleanup_node` returns `true` unconditionally — also
when neither a config nor a worker handle existed — and removes whatever
did exist; the HTTP route therefore reports success whenever a nodeId
was supplied. (`false` is only reachable through the unreachable
exception fallback.) -/
theorem c2_cleanup_always_true (st : SysState) (node hNode : String) (e : Option Nat) :
    (cleanup_node st node e).1 = true
    ∧ alookup (cleanup_node st node e).2.user_configs node = none
    ∧ alookup (cleanup_node st node e).2.user_agents node = none
    ∧ (pyOr node hNode ≠ "" → (cleanup_user st node hNode e).1
        = ApiResult.success (pyOr node hNode)) := by
  refine ⟨rfl, alookup_aerase_self .., alookup_aerase_self .., fun h => ?_⟩
  unfold cleanup_user
  rw [if_neg h]
  simp [cleanup_node]

/-- C2 witness. -/
theorem c2_witness :
    (cleanup_node emptyState "n2" none).1 = true
    ∧ (cleanup_user emptyState "n2" "" none).1 = ApiResult.success "n2" :=
  have h := c2_cleanup_always_true emptyState "n2" "" none
  ⟨h.1, h.2.2.2 (by decide)⟩

/-! ### C3 -/

theorem filter_alive_nil (l : List AgentThread)
    (h : (l.all fun t => !t.alive) = true) : (l.filter fun t => t.alive) = [] := by
  induction l with
  | nil => rfl
  | cons t rest ih =>
    simp only [List.all_cons, Bool.and_eq_true, Bool.not_eq_true'] at h
    simp [List.filter_cons, h.1, ih h.2]

/-- C3: `start_agent` is a no-op exactly when the liveness probe on the
current thread succeeds; a thread that terminated without clearing its
own state (present but dead) is replaced by a freshly spawned one; a
fresh manager satisfies the all-but-current-dead ghost invariant, the
invariant bounds the number of simultaneously alive units by one, and it
is preserved by `start_agent`, `stop_agent` and a unit dying on its own. -/
theorem c3_at_most_one_worker (m : AgentManager) (e : Option Nat) (tid : Nat)
    (n : String) (c : ConfigData) :
    (m.isAlive = true → start_agent m = m)
    ∧ (∀ t, m.threads.head? = some t → t.alive = false →
        (start_agent m).threads.length = m.threads.length + 1
        ∧ (start_agent m).isAlive = true)
    ∧ tail_dead (AgentManager.init n c) = true
    ∧ (tail_dead m = true → alive_count m ≤ 1)
    ∧ (tail_dead m = true →
        tail_dead (start_agent m) = true
        ∧ tail_dead (stop_agent m e).1 = true
        ∧ tail_dead (mark_dead m tid) = true) := by
  obtain ⟨nid, cfg, threads, sc, ev⟩ := m
  refine ⟨?_, ?_, rfl, ?_, ?_⟩
  · intro h
    unfold start_agent
    rw [if_pos h]
  · intro t ht hdead
    cases threads with
    | nil => simp at ht
    | cons t0 rest =>
      simp only [List.head?_cons, Option.some.injEq] at ht
      subst ht
      simp [start_agent, AgentManager.isAlive, hdead]
  · intro h
    cases threads with
    | nil => simp [alive_count]
    | cons t rest =>
      have hrest : (rest.all fun x => !x.alive) = true := by
        simpa [tail_dead] using h
      unfold alive_count
      simp only [List.filter_cons, filter_alive_nil rest hrest]
      split <;> simp
  · intro h
    cases threads with
    | nil =>
      refine ⟨?_, ?_, ?_⟩
      · simp [start_agent, AgentManager.isAlive, tail_dead]
      · simpa [stop_agent] using h
      · simp [mark_dead, tail_dead]
    | cons t rest =>
      have hrest : (rest.all fun x => !x.alive) = true := by
        simpa [tail_dead] using h
      refine ⟨?_, ?_, ?_⟩
      · by_cases ha : t.alive
        · simpa [start_agent, AgentManager.isAlive, ha, tail_dead] using hrest
        · simp [start_agent, AgentManager.isAlive, ha, tail_dead, hrest]
      · by_cases ha : t.alive
        · cases e with
          | some x =>
            by_cases hx : x ≤ 5 <;> simp [stop_agent, ha, hx, tail_dead, hrest]
          | none => simp [stop_agent, ha, tail_dead, hrest]
        · simp [stop_agent, ha, tail_dead, hrest]
      · unfold mark_dead tail_dead
        simp only [List.map_cons, List.drop_one, List.tail_cons]
        rw [List.all_eq_true] at hrest ⊢
        intro x hx
        rw [List.mem_map] at hx
        obtain ⟨y, hy, hxy⟩ := hx
        have hyd := hrest y hy
        subst hxy
        split <;> simp_all

/-- C3 witness. -/
theorem c3_witness :
    start_agent (start_agent (AgentManager.init "n1" validBody))
      = start_agent (AgentManager.init "n1" validBody)
    ∧ alive_count (start_agent (AgentManager.init "n1" validBody)) ≤ 1 :=
  have h := c3_at_most_one_worker (start_agent (AgentManager.init "n1" validBody))
    none 0 "n1" validBody
  ⟨h.1 (by decide), h.2.2.2.1 (by decide)⟩

/-! ### C4 -/

/-- C4, counterexample: for a handle whose unit was never started (or is
not alive), `stop_agent` does not raise the cancellation-signal at all —
the manager is returned unchanged with its shutdown event still unset —
refuting the claim that stop raises the signal for every handle. -/
theorem c4_counterexample :
    stop_agent (AgentManager.init "n1" validBody) none
      = (AgentManager.init "n1" validBody, 0, true)
    ∧ (AgentManager.init "n1" validBody).shutdown_event = false := by
  exact ⟨rfl, rfl⟩

/-- C4 (amended): `stop_agent` raises the cancellation-signal whenever
the unit is alive (for a handle with no live unit it returns immediately
without touching the signal); in every case it returns within the
5-unit grace timeout; and a stop reported as not graceful leaves the
unit alive — it is never force-killed. -/
theorem c4_stop_agent_bounded (m : AgentManager) (e : Option Nat) :
    (stop_agent m e).2.1 ≤ 5
    ∧ (m.isAlive = true → (stop_agent m e).1.shutdown_event = true)
    ∧ ((stop_agent m e).2.2 = false → (stop_agent m e).1.isAlive = true) := by
  obtain ⟨nid, cfg, threads, sc, ev⟩ := m
  cases threads with
  | nil => simp [stop_agent, AgentManager.isAlive]
  | cons t rest =>
    by_cases ha : t.alive
    · cases e with
      | some x =>
        by_cases hx : x ≤ 5
        · simp [stop_agent, AgentManager.isAlive, ha, hx]
        · simp [stop_agent, AgentManager.isAlive, ha, hx]
      | none => simp [stop_agent, AgentManager.isAlive, ha]
    · simp [stop_agent, AgentManager.isAlive, ha]

/-- C4 witness: a live unit that ignores its cancellation-signal. -/
theorem c4_witness :
    (stop_agent (start_agent (AgentManager.init "n1" validBody)) none).2.1 ≤ 5
    ∧ (stop_agent (start_agent (AgentManager.init "n1" validBody)) none).1.shutdown_event = true
    ∧ (stop_agent (start_agent (AgentManager.init "n1" validBody)) none).1.isAlive = true :=
  have h := c4_stop_agent_bounded (start_agent (AgentManager.init "n1" validBody)) none
  ⟨h.1, h.2.1 (by decide), h.2.2 (by decide)⟩

/-! ### C5 -/

/-- Running the loop across `k` checks that all see the shutdown event
unset and an invalid config just adds `5 * k` to the slept time. -/
theorem cwo_skip (s : Nat → Bool) (c : Nat → ConfigData) :
    ∀ (k j fuel : Nat),
    (∀ d, d < k → s (j + d) = false ∧ validate_config (c (j + d)) = false) →
    create_worker_options s c (fuel + k) j =
      (create_worker_options s c fuel (j + k)).map fun p => (p.1, p.2 + 5 * k) := by
  intro k
  induction k with
  | zero =>
    intro j fuel h
    simp only [Nat.add_zero]
    cases hcw : create_worker_options s c fuel j <;> simp [hcw]
  | succ n ih =>
    intro j fuel h
    have h0 := h 0 (Nat.succ_pos n)
    simp only [Nat.add_zero] at h0
    have hstep : fuel + (n + 1) = (fuel + n) + 1 := by omega
    rw [hstep]
    rw [create_worker_options]
    rw [if_neg (by simp [h0.1]), if_neg (by simp [h0.2])]
    have hshift : ∀ d, d < n → s (j + 1 + d) = false ∧ validate_config (c (j + 1 + d)) = false := by
      intro d hd
      have := h (d + 1) (by omega)
      have harith : j + (d + 1) = j + 1 + d := by omega
      rwa [harith] at this
    rw [ih (j + 1) fuel hshift]
    have harith2 : j + 1 + n = j + (n + 1) := by omega
    rw [harith2]
    cases hcw : create_worker_options s c fuel (j + (n + 1)) with
    | none => rfl
    | some p =>
      show some (p.1, p.2 + 5 * n + 5) = some (p.1, p.2 + 5 * (n + 1))
      have harith3 : p.2 + 5 * n + 5 = p.2 + 5 * (n + 1) := by omega
      rw [harith3]

/-- The loop only ever returns worker options built from a config it saw
validate while the shutdown event was unset. -/
theorem cwo_sound (s : Nat → Bool) (c : Nat → ConfigData) :
    ∀ (fuel i : Nat) (opts : WorkerOptions) (t : Nat),
    create_worker_options s c fuel i = some (some opts, t) →
    ∃ j, s j = false ∧ validate_config (c j) = true ∧ opts = mk_worker_options (c j) := by
  intro fuel
  induction fuel with
  | zero =>
    intro i opts t h
    simp [create_worker_options] at h
  | succ n ih =>
    intro i opts t h
    rw [create_worker_options] at h
    by_cases hs : s i
    · rw [if_pos hs] at h
      simp at h
    · rw [if_neg (by simp [hs])] at h
      by_cases hv : validate_config (c i)
      · rw [if_pos hv] at h
        simp at h
        exact ⟨i, by simp [hs], hv, h.1.symm⟩
      · rw [if_neg (by simp [hv])] at h
        cases hcw : create_worker_options s c n (i + 1) with
        | none => rw [hcw] at h; simp at h
        | some p =>
          rw [hcw] at h
          simp at h
          exact ih (i + 1) opts p.2 (by rw [hcw, ← h.1])

/-- C5: after `k` checks that each saw the shutdown event unset and an
invalid config (each costing one 5-unit backoff sleep), the loop returns
worker options built from the current config as soon as a check sees a
valid config, and returns no options as soon as a check sees the
cancellation-signal; and options are only ever returned from a config
that satisfied the invariant while the signal was unset. -/
theorem c5_await_valid_config (s : Nat → Bool) (c : Nat → ConfigData) (k fuel : Nat)
    (hbefore : ∀ i, i < k → s i = false ∧ validate_config (c i) = false) :
    (s k = false → validate_config (c k) = true →
      create_worker_options s c (fuel + k + 1) 0
        = some (some (mk_worker_options (c k)), 5 * k))
    ∧ (s k = true →
      create_worker_options s c (fuel + k + 1) 0 = some (none, 5 * k))
    ∧ (∀ f i opts t, create_worker_options s c f i = some (some opts, t) →
        ∃ j, s j = false ∧ validate_config (c j) = true
          ∧ opts = mk_worker_options (c j)) := by
  have hb0 : ∀ d, d < k → s (0 + d) = false ∧ validate_config (c (0 + d)) = false := by
    intro d hd
    simpa using hbefore d hd
  have hsplit : fuel + k + 1 = (fuel + 1) + k := by omega
  refine ⟨?_, ?_, fun f i opts t h => cwo_sound s c f i opts t h⟩
  · intro hs hv
    rw [hsplit, cwo_skip s c k 0 (fuel + 1) hb0]
    rw [create_worker_options]
    simp only [Nat.zero_add]
    rw [if_neg (by simp [hs]), if_pos hv]
    simp
  · intro hs
    rw [hsplit, cwo_skip s c k 0 (fuel + 1) hb0]
    rw [create_worker_options]
    simp only [Nat.zero_add]
    rw [if_pos hs]
    simp

/-- C5 witness: an invalid config with the shutdown event raised at the
third check makes the loop exit with no options after two 5-unit
backoffs. -/
theorem c5_witness :
    create_worker_options (fun i => decide (2 ≤ i)) (fun _ => invalidMediaBody) 3 0
      = some (none, 10) :=
  (c5_await_valid_config (fun i => decide (2 ≤ i)) (fun _ => invalidMediaBody) 2 0
    (by decide)).2.1 (by decide)

/-! ### C6 -/

/-- C6: for any prior state, activating a node with a structurally
accepted body and then querying its config returns exactly that body —
the stored config is the new body itself, so it fully replaces (never
merges with) whatever was stored before. -/
theorem c6_activate_query_roundtrip (st : SysState) (body : ConfigData)
    (hNode : String) (e : Option Nat)
    (hnode : pyOr body.nodeId hNode ≠ "")
    (hkeys : body.liveKit.isSome ∧ body.stt.isSome ∧ body.llm.isSome ∧ body.tts.isSome) :
    get_config (set_config st body hNode e).2 (pyOr body.nodeId hNode) ""
      = ApiResult.success (some body, pyOr body.nodeId hNode) := by
  have h := set_config_ok st body hNode e hnode hkeys
  unfold get_config
  rw [pyOr_empty_right, if_neg hnode, h.2.1]

/-- C6 witness: a different config for `n1` was already stored; the
round trip returns the new body, not a merge. -/
theorem c6_witness :
    get_config
      (set_config { user_configs := [("n1", validBody2)], user_agents := [] }
        validBody "" none).2 "n1" ""
      = ApiResult.success (some validBody, "n1") :=
  c6_activate_query_roundtrip { user_configs := [("n1", validBody2)], user_agents := [] }
    validBody "" none (by decide) (by decide)

/-! ### C7 -/

/-- C7: after `cleanup_node` on any state — in particular on a
previously activated node — the per-node query returns the empty
structure and the per-node health check reports both `configPresent`
and `workerAlive` false. -/
theorem c7_cleanup_clears_config_and_worker (st : SysState) (n : String)
    (e : Option Nat) (hn : n ≠ "") :
    get_config (cleanup_node st n e).2 n "" = ApiResult.success (none, n)
    ∧ health_check_node (cleanup_node st n e).2 n
        = { config_available := false, agent_running := false } := by
  have hc : alookup (cleanup_node st n e).2.user_configs n = none := by
    unfold cleanup_node
    exact alookup_aerase_self ..
  have ha : alookup (cleanup_node st n e).2.user_agents n = none := by
    unfold cleanup_node
    exact alookup_aerase_self ..
  constructor
  · unfold get_config
    rw [pyOr_empty_right, if_neg hn, hc]
  · unfold health_check_node
    rw [hc, ha]
    rfl

/-- C7 witness: activate `n1` with a fully valid config (its worker is
then alive), clean it up, observe both indicators false. -/
theorem c7_witness :
    get_config (cleanup_node (set_config emptyState validBody "" none).2 "n1" none).2 "n1" ""
      = ApiResult.success (none, "n1")
    ∧ health_check_node (cleanup_node (set_config emptyState validBody "" none).2 "n1" none).2 "n1"
        = { config_available := false, agent_running := false } :=
  c7_cleanup_clears_config_and_worker (set_config emptyState validBody "" none).2 "n1"
    none (by decide)

/-! ### C9 -/

/-- C9: token issuance only checks the stored apiKey and secret; with
both non-empty and the serverUrl empty, `get_token` reports success and
the returned token payload carries the empty serverUrl. -/
theorem c9_get_token_ignores_server_url (st : SysState) (node : String)
    (c : ConfigData) (lk : LiveKitConfig) (nm rm g : String)
    (hn : node ≠ "")
    (hc : alookup st.user_configs node = some c)
    (hlk : c.liveKit = some lk)
    (hk : lk.apiKey ≠ "")
    (hs : lk.secret ≠ "")
    (hurl : lk.serverUrl = "") :
    ∃ td, get_token st node "" nm rm g = ApiResult.success td ∧ td.serverUrl = "" := by
  have hget : get_livekit_config_for_node st node = some (lk.apiKey, lk.secret, lk.serverUrl) := by
    unfold get_livekit_config_for_node
    rw [hc]
    simp only [Option.getD_some]
    rw [hlk]
    simp only [Option.getD_some]
    rw [if_neg]
    push_neg
    exact ⟨hk, hs⟩
  unfold get_token
  rw [pyOr_empty_right, if_neg hn, hc, hget]
  exact ⟨_, rfl, hurl⟩

/-- C9 witness: node `n1` stores credentials with an empty serverUrl;
the token endpoint succeeds and echoes the empty serverUrl. -/
theorem c9_witness :
    ∃ td, get_token { user_configs := [("n1", tokenBody)], user_agents := [] }
        "n1" "" "" "" "u" = ApiResult.success td ∧ td.serverUrl = "" :=
  c9_get_token_ignores_server_url { user_configs := [("n1", tokenBody)], user_agents := [] }
    "n1" tokenBody { apiKey := "k", secret := "s", serverUrl := "" } "" "" "u"
    (by decide) (by decide) (by decide) (by decide) (by decide) (by decide)

/-! ### C10 -/

/-- C10: a request body missing any of the four required top-level keys
makes `set_config` fail before mutating anything — the returned state is
exactly the input state, so the stored config and any running worker are
untouched. -/
theorem c10_missing_keys_leave_state_unchanged (st : SysState) (body : ConfigData)
    (hNode : String) (e : Option Nat)
    (hmiss : body.liveKit.isNone ∨ body.stt.isNone ∨ body.llm.isNone ∨ body.tts.isNone) :
    (∃ msg err, (set_config st body hNode e).1 = ApiResult.failure msg err)
    ∧ (set_config st body hNode e).2 = st := by
  unfold set_config
  by_cases hn : pyOr body.nodeId hNode = ""
  · rw [if_pos hn]
    exact ⟨⟨_, _, rfl⟩, rfl⟩
  · rw [if_neg hn, if_neg]
    · exact ⟨⟨_, _, rfl⟩, rfl⟩
    · rcases hmiss with h | h | h | h <;> simp [Option.isNone_iff_eq_none] at h <;> simp [h]

/-- C10 witness: a body missing its `llm` key is rejected and the empty
registry state is returned unchanged. -/
theorem c10_witness :
    (∃ msg err, (set_config emptyState missingKeyBody "" none).1 = ApiResult.failure msg err)
    ∧ (set_config emptyState missingKeyBody "" none).2 = emptyState :=
  c10_missing_keys_leave_state_unchanged emptyState missingKeyBody "" none
    (by decide)

/-! ### C8 -/

/-- C8: unknown/unsupported provider keys fall back to the baseline groq
adapter for each of STT, LLM and TTS; a supported provider whose
optional plugin failed to import at process start leaves its adapter
unset (`none`); and the three adapters are always computed
independently — a skipped provider never aborts the initialization of
the other two. -/
theorem c8_provider_fallback (avail : String → Bool) (c : ConfigData) :
    (provider_key c.stt ∉ ["groq", "deepgram", "azure"] →
      init_stt avail c = some (Adapter.groqSTT (provider_api_key c.stt)))
    ∧ (provider_key c.llm ∉ ["groq", "openai", "anthropic", "azure", "gemini"] →
      init_llm avail c = some (Adapter.groqLLM (provider_api_key c.llm)))
    ∧ (provider_key c.tts ∉ ["groq", "elevenlabs", "openai", "azure", "google", "deepgram"] →
      init_tts avail c = some (Adapter.groqTTS (provider_api_key c.tts)))
    ∧ (∀ p, p ∈ ["deepgram", "azure"] → provider_key c.stt = p → avail p = false →
      init_stt avail c = none)
    ∧ (∀ p, p ∈ ["openai", "anthropic", "azure"] → provider_key c.llm = p → avail p = false →
      init_llm avail c = none)
    ∧ (provider_key c.llm = "gemini" → avail "google" = false → init_llm avail c = none)
    ∧ (∀ p, p ∈ ["elevenlabs", "openai", "azure", "google", "deepgram"] →
      provider_key c.tts = p → avail p = false → init_tts avail c = none)
    ∧ init_providers avail c = (init_stt avail c, init_llm avail c, init_tts avail c) := by
  have hplug : ∀ p, avail (py_lower p) = false → get_plugin avail p = none := by
    intro p hav
    unfold get_plugin
    rw [if_neg]
    intro hcon
    rw [hav] at hcon
    exact Bool.false_ne_true hcon.2
  refine ⟨?_, ?_, ?_, ?_, ?_, ?_, ?_, rfl⟩
  · intro h
    simp only [List.mem_cons, List.not_mem_nil, or_false, not_or] at h
    obtain ⟨h1, h2, h3⟩ := h
    unfold init_stt
    rw [if_neg h1, if_neg h2, if_neg h3]
  · intro h
    simp only [List.mem_cons, List.not_mem_nil, or_false, not_or] at h
    obtain ⟨h1, h2, h3, h4, h5⟩ := h
    unfold init_llm
    rw [if_neg h1, if_neg h2, if_neg h3, if_neg h4, if_neg h5]
  · intro h
    simp only [List.mem_cons, List.not_mem_nil, or_false, not_or] at h
    obtain ⟨h1, h2, h3, h4, h5, h6⟩ := h
    unfold init_tts
    rw [if_neg h1, if_neg h2, if_neg h3, if_neg h4, if_neg h5, if_neg h6]
  · intro p hp hkey hav
    simp only [List.mem_cons, List.not_mem_nil, or_false] at hp
    rcases hp with rfl | rfl
    · unfold init_stt
      rw [if_neg (by rw [hkey]; decide), if_pos hkey,
        hplug "deepgram" (by rwa [show py_lower "deepgram" = "deepgram" from by decide])]
      rfl
    · unfold init_stt
      rw [if_neg (by rw [hkey]; decide), if_neg (by rw [hkey]; decide), if_pos hkey,
        hplug "azure" (by rwa [show py_lower "azure" = "azure" from by decide])]
      rfl
  · intro p hp hkey hav
    simp only [List.mem_cons, List.not_mem_nil, or_false] at hp
    rcases hp with rfl | rfl | rfl
    · unfold init_llm
      rw [if_neg (by rw [hkey]; decide), if_pos hkey,
        hplug "openai" (by rwa [show py_lower "openai" = "openai" from by decide])]
      rfl
    · unfold init_llm
      rw [if_neg (by rw [hkey]; decide), if_neg (by rw [hkey]; decide), if_pos hkey,
        hplug "anthropic" (by rwa [show py_lower "anthropic" = "anthropic" from by decide])]
      rfl
    · unfold init_llm
      rw [if_neg (by rw [hkey]; decide), if_neg (by rw [hkey]; decide),
        if_neg (by rw [hkey]; decide), if_pos hkey,
        hplug "azure" (by rwa [show py_lower "azure" = "azure" from by decide])]
      rfl
  · intro hkey hav
    unfold init_llm
    rw [if_neg (by rw [hkey]; decide), if_neg (by rw [hkey]; decide),
      if_neg (by rw [hkey]; decide), if_neg (by rw [hkey]; decide), if_pos hkey,
      hplug "google" (by rwa [show py_lower "google" = "google" from by decide])]
    rfl
  · intro p hp hkey hav
    simp only [List.mem_cons, List.not_mem_nil, or_false] at hp
    rcases hp with rfl | rfl | rfl | rfl | rfl
    · unfold init_tts
      rw [if_neg (by rw [hkey]; decide), if_pos hkey,
        hplug "elevenlabs" (by rwa [show py_lower "elevenlabs" = "elevenlabs" from by decide])]
      rfl
    · unfold init_tts
      rw [if_neg (by rw [hkey]; decide), if_neg (by rw [hkey]; decide), if_pos hkey,
        hplug "openai" (by rwa [show py_lower "openai" = "openai" from by decide])]
      rfl
    · unfold init_tts
      rw [if_neg (by rw [hkey]; decide), if_neg (by rw [hkey]; decide),
        if_neg (by rw [hkey]; decide), if_pos hkey,
        hplug "azure" (by rwa [show py_lower "azure" = "azure" from by decide])]
      rfl
    · unfold init_tts
      rw [if_neg (by rw [hkey]; decide), if_neg (by rw [hkey]; decide),
        if_neg (by rw [hkey]; decide), if_neg (by rw [hkey]; decide), if_pos hkey,
        hplug "google" (by rwa [show py_lower "google" = "google" from by decide])]
      rfl
    · unfold init_tts
      rw [if_neg (by rw [hkey]; decide), if_neg (by rw [hkey]; decide),
        if_neg (by rw [hkey]; decide), if_neg (by rw [hkey]; decide),
        if_neg (by rw [hkey]; decide), if_pos hkey,
        hplug "deepgram" (by rwa [show py_lower "deepgram" = "deepgram" from by decide])]
      rfl

/-- C8 witness: with no optional plugin imported, an unknown STT key
falls back to groq, while the anthropic LLM and elevenlabs TTS are
skipped with their adapters unset — and the other components are still
initialized. -/
theorem c8_witness :
    init_stt (fun _ => false) pluginBody = some (Adapter.groqSTT "a")
    ∧ init_llm (fun _ => false) pluginBody = none
    ∧ init_tts (fun _ => false) pluginBody = none :=
  have h := c8_provider_fallback (fun _ => false) pluginBody
  ⟨h.1 (by decide),
   h.2.2.2.2.1 "anthropic" (by decide) (by decide) rfl,
   h.2.2.2.2.2.2.1 "elevenlabs" (by decide) (by decide) rfl⟩

end LiveConnect
